import Mathlib

/-!
Shallow embedding of the session-logging module (sessions.py) of the
bayeslite repository: a SessionTracer that records every traced query as a
row of the bayesdb_session_entries table, grouped into sessions
(bayesdb_session table), with a two-phase completed flag, JSON export and
upload of recorded sessions.

The mutable SQLite state visible to the module is modelled by LogState:
the rows of the two tables, the sqlite_sequence AUTOINCREMENT counters of
both tables, and the tracer's current session id attribute.  Each method
of SessionTracer becomes a function on LogState; printing to the
diagnostic stream is modelled as a returned list of printed lines, and the
HTTP POSTs of send_session_data as the returned list of (session id,
payload) pairs.  Query bindings are the scalar tuples/dicts that the
sqlite3 layer accepts, and json.dumps on them (and on the dumped entry
rows) is embedded as an executable serializer.  Timestamps (time.time())
are modelled as integers: only their ordering matters to the module.
-/

/-- One SQL query parameter value, as bound by the sqlite3 layer and
serialized by json.dumps. -/
inductive Scalar where
  | int : Int → Scalar
  | str : String → Scalar
  | null : Scalar
deriving Repr, DecidableEq

/-- The bindings collection passed to a trace callback: either a positional
tuple/list or a keyed dict, of scalar values. -/
inductive Bindings where
  | tuple : List Scalar → Bindings
  | dict : List (String × Scalar) → Bindings
deriving Repr, DecidableEq

/-- Lowercase hexadecimal digit, as used by the json module's unicode
escapes. -/
def hexDigit (n : Nat) : Char :=
  if n < 10 then Char.ofNat (48 + n) else Char.ofNat (87 + n)

/-- A \uXXXX escape for a code unit, as emitted by json.dumps with its
default ensure_ascii=True. -/
def uEscape (n : Nat) : String :=
  "\\u" ++ String.mk [hexDigit (n / 4096 % 16), hexDigit (n / 256 % 16),
    hexDigit (n / 16 % 16), hexDigit (n % 16)]

/-- Escaping of one character inside a JSON string literal, following
json.dumps defaults (ensure_ascii=True, so non-ASCII becomes \uXXXX, with
surrogate pairs beyond the BMP). -/
def jsonEscapeChar (c : Char) : String :=
  if c = '"' then "\\\""
  else if c = '\\' then "\\\\"
  else if c = '\n' then "\\n"
  else if c = '\r' then "\\r"
  else if c = '\t' then "\\t"
  else if c = Char.ofNat 8 then "\\b"
  else if c = Char.ofNat 12 then "\\f"
  else if c.toNat < 32 then uEscape c.toNat
  else if c.toNat < 127 then String.singleton c
  else if c.toNat ≤ 65535 then uEscape c.toNat
  else uEscape (55296 + (c.toNat - 65536) / 1024) ++
    uEscape (56320 + (c.toNat - 65536) % 1024)

/-- json.dumps rendering of a string value. -/
def jsonString (s : String) : String :=
  "\"" ++ String.join (s.data.map jsonEscapeChar) ++ "\""

/-- json.dumps rendering of one scalar value. -/
def jsonScalar : Scalar → String
  | .int n => toString n
  | .str s => jsonString s
  | .null => "null"

/-- json.dumps rendering of a JSON array, given the rendered elements
(default separator of json.dumps is a comma followed by a space). -/
def jsonArray (elems : List String) : String :=
  "[" ++ String.intercalate ", " elems ++ "]"

/-- json.dumps rendering of a JSON object, given the rendered key/value
pairs (default key separator of json.dumps is a colon followed by a
space). -/
def jsonObject (kvs : List (String × String)) : String :=
  "\x7b" ++ String.intercalate ", "
    (kvs.map (fun kv => jsonString kv.1 ++ ": " ++ kv.2)) ++ "\x7d"

/-- json.dumps of a bindings collection: a tuple/list becomes a JSON
array, a dict becomes a JSON object. -/
def jsonDumpsBindings : Bindings → String
  | .tuple xs => jsonArray (xs.map jsonScalar)
  | .dict kvs => jsonObject (kvs.map (fun kv => (kv.1, jsonScalar kv.2)))

/-- One row of the bayesdb_session_entries table:
id INTEGER PRIMARY KEY AUTOINCREMENT, session_id INTEGER, time REAL,
type TEXT, data TEXT, completed INTEGER DEFAULT 0. -/
structure SessionEntry where
  id : Nat
  session_id : Nat
  time : Int
  type : String
  data : String
  completed : Bool
deriving Repr, DecidableEq

/-- One row of the bayesdb_session table (id INTEGER PRIMARY KEY
AUTOINCREMENT; further session-level columns are not touched by the
module and are elided). -/
structure SessionRow where
  id : Nat
deriving Repr, DecidableEq

/-- The storage state seen by the SessionTracer: the rows of the two
session tables, the sqlite_sequence counters of both AUTOINCREMENT
tables, and the tracer's session_id attribute. -/
structure LogState where
  sessions : List SessionRow
  entries : List SessionEntry
  seqSession : Nat
  seqEntries : Nat
  session_id : Nat
deriving Repr, DecidableEq

/-- The rowid SQLite assigns to a fresh insert into an AUTOINCREMENT
table: one more than the larger of the sqlite_sequence counter and every
existing rowid. -/
def nextId (seq : Nat) (ids : List Nat) : Nat :=
  ids.foldr max seq + 1

/-- INSERT INTO bayesdb_session DEFAULT VALUES followed by reading
last_insert_rowid() into self.session_id. -/
def _start_new_session (s : LogState) : LogState :=
  let sid := nextId s.seqSession (s.sessions.map SessionRow.id)
  { s with
    sessions := s.sessions ++ [⟨sid⟩]
    seqSession := sid
    session_id := sid }

/-- UPDATE bayesdb_session_entries SET completed=1 WHERE id=? — the body
of the completion callback returned by a trace callback. -/
def _finish (entry_id : Nat) (s : LogState) : LogState :=
  { s with entries := s.entries.map (fun e =>
      if e.id = entry_id then { e with completed := true } else e) }

/-- Save a session entry into the database: data is the query text with
json.dumps of the bindings appended, the row starts in the not-completed
state, and the new entry id (captured by the returned completion
callback) is read back from last_insert_rowid(). -/
def _trace (type : String) (query : String) (bindings : Bindings)
    (t : Int) (s : LogState) : LogState × Nat :=
  let data := query ++ jsonDumpsBindings bindings
  let eid := nextId s.seqEntries (s.entries.map SessionEntry.id)
  ({ s with
      entries := s.entries ++ [⟨eid, s.session_id, t, type, data, false⟩]
      seqEntries := eid },
    eid)

/-- The bql trace callback: a _trace with the fixed type tag bql. -/
def _bql_trace (query : String) (bindings : Bindings) (t : Int)
    (s : LogState) : LogState × Nat :=
  _trace "bql" query bindings t s

/-- The sql trace callback: a _trace with the fixed type tag sql. -/
def _sql_trace (query : String) (bindings : Bindings) (t : Int)
    (s : LogState) : LogState × Nat :=
  _trace "sql" query bindings t s

/-- The warning printed when the previous session has uncompleted
entries (the three string literals of the source, joined by +). -/
def sessionWarning : String :=
  "WARNING: Previous session contains uncompleted entries. " ++
  "This may be due to a bad termination or crash of the " ++
  "previous session. Consider uploading the session with send_session_data()."

/-- SELECT COUNT from bayesdb_session_entries WHERE completed=0 AND
session_id = self.session_id - 1: returns the count (as the source does)
together with the lines printed to the diagnostic stream. -/
def _check_unfinished_entries (s : LogState) : Nat × List String :=
  let uncompleted_entries :=
    (s.entries.filter (fun e =>
      e.completed == false && e.session_id == s.session_id - 1)).length
  (uncompleted_entries,
    if uncompleted_entries > 0 then [sessionWarning] else [])

/-- SessionTracer.__init__ after the trace hooks are registered with the
engine: start a new session, then run the advisory check on the previous
session.  Returns the new state, the count of uncompleted entries found,
and the printed warning lines. -/
def tracerInit (s : LogState) : LogState × Nat × List String :=
  let s1 := _start_new_session s
  let r := _check_unfinished_entries s1
  (s1, r.1, r.2)

/-- DELETE all entry rows, all session rows and both sqlite_sequence
counters, then start a fresh session. -/
def clear_all_sessions (s : LogState) : LogState :=
  _start_new_session
    { s with
      entries := []
      sessions := []
      seqSession := 0
      seqEntries := 0 }

/-- SELECT * FROM bayesdb_session. -/
def list_sessions (s : LogState) : List SessionRow :=
  s.sessions

/-- Returns the current integer session id. -/
def current_session_id (s : LogState) : Nat :=
  s.session_id

/-- ORDER BY time DESC, as a relation on entry rows. -/
def timeDesc (a b : SessionEntry) : Prop :=
  b.time ≤ a.time

instance : DecidableRel timeDesc :=
  fun a b => inferInstanceAs (Decidable (b.time ≤ a.time))

instance : IsTotal SessionEntry timeDesc :=
  ⟨fun a b => le_total b.time a.time⟩

instance : IsTrans SessionEntry timeDesc :=
  ⟨fun _ _ _ h1 h2 => le_trans h2 h1⟩

/-- SELECT * FROM bayesdb_session_entries WHERE session_id == ? ORDER BY
time DESC: the rows of one session, most recent first. -/
def sessionEntries (session_id : Int) (s : LogState) : List SessionEntry :=
  List.insertionSort timeDesc
    (s.entries.filter (fun e => (e.session_id : Int) == session_id))

/-- Modelled from the spec: the row shape a SELECT * cursor of the
engine-owned storage connection yields for a bayesdb_session_entries row
(the connection is set up by the engine, outside this module).  Per the
spec the field names id, session_id, time, type, data, completed are
preserved, so a row serializes as a JSON object keyed by the column
names, in column order.  completed is an INTEGER column, stored 0/1. -/
def entryRow (e : SessionEntry) : List (String × String) :=
  [("id", toString (e.id : Int)),
   ("session_id", toString (e.session_id : Int)),
   ("time", toString e.time),
   ("type", jsonString e.type),
   ("data", jsonString e.data),
   ("completed", toString (if e.completed then (1 : Int) else 0))]

/-- json.dumps of one fetched entry row. -/
def rowJson (e : SessionEntry) : String :=
  jsonObject (entryRow e)

/-- json.dumps of the fetched list of entry rows. -/
def rowsJson (l : List SessionEntry) : String :=
  jsonArray (l.map rowJson)

/-- Returns a JSON string representing the list of entries executed
within session session_id, raising ValueError when the id is out of
range. -/
def dump_session_as_json (session_id : Int) (s : LogState) :
    Except String String :=
  if session_id > (s.session_id : Int) ∨ session_id < 1 then
    .error ("No such session (" ++ toString session_id ++ ")")
  else
    .ok (rowsJson (sessionEntries session_id s))

/-- Returns a JSON string representing the current session. -/
def dump_current_session_as_json (s : LogState) : Except String String :=
  dump_session_as_json (s.session_id : Int) s

/-- Send all saved session history: for id in range(1, session_id + 1),
dump the session and POST the result as the session_json form field.
Modelled as the sequence of (session id, dumped payload) pairs posted. -/
def send_session_data (s : LogState) : List (Nat × Except String String) :=
  (List.range' 1 s.session_id).map
    (fun id => (id, dump_session_as_json (id : Int) s))

/-- True exactly when the Except value carries an error (a raised
ValueError in the source). -/
def isErr : Except String String → Bool
  | .error _ => true
  | .ok _ => false

/-- A sample log state with two sessions and three entries, used to
instantiate the hypothesis-carrying theorems below. -/
def sampleState : LogState :=
  ⟨[⟨1⟩, ⟨2⟩],
   [⟨1, 1, 5, "bql", "q1[]", false⟩,
    ⟨2, 2, 9, "sql", "q2[]", true⟩,
    ⟨3, 2, 7, "bql", "q3[]", false⟩],
   2, 3, 2⟩

/-- A sample log state whose current session (id 2) has no entries. -/
def emptySessState : LogState :=
  ⟨[⟨1⟩, ⟨2⟩], [⟨1, 1, 5, "bql", "x[]", true⟩], 2, 1, 2⟩

/-- Every member of a list is bounded by the foldr of max over it. -/
theorem mem_le_foldr_max (a seq : Nat) (l : List Nat) (h : a ∈ l) :
    a ≤ l.foldr max seq := by
  induction l with
  | nil => cases h
  | cons b t ih =>
    rcases List.mem_cons.mp h with hb | ht
    · subst hb; exact le_max_left _ _
    · exact le_trans (ih ht) (le_max_right _ _)

/-- The completed-flag update is the identity on every row whose id does
not match. -/
theorem map_finish_of_ne (entry_id : Nat) (l : List SessionEntry)
    (h : ∀ e ∈ l, e.id ≠ entry_id) :
    l.map (fun e => if e.id = entry_id then { e with completed := true } else e)
      = l := by
  induction l with
  | nil => rfl
  | cons b t ih =>
    have hb : b.id ≠ entry_id := h b (List.mem_cons_self b t)
    simp only [List.map_cons, if_neg hb]
    rw [ih (fun e he => h e (List.mem_cons_of_mem b he))]

/-- The id a fresh insert receives is distinct from every existing id. -/
theorem existing_id_ne_nextId (seq : Nat) (l : List SessionEntry) :
    ∀ e ∈ l, e.id ≠ nextId seq (l.map SessionEntry.id) := by
  intro e he
  have hle : e.id ≤ (l.map SessionEntry.id).foldr max seq :=
    mem_le_foldr_max _ _ _ (List.mem_map_of_mem SessionEntry.id he)
  unfold nextId
  omega

/-- C1: invoking a trace callback (bql or sql) appends exactly one new
entry row, whose completed flag is false and whose data field is the
literal concatenation of the query text and the JSON encoding of the
bindings; for query text SELECT 1; and empty dict bindings the data
field is that text followed by an opening and a closing brace. -/
theorem trace_inserts_one_pending_entry (query : String)
    (bindings : Bindings) (t : Int) (s : LogState) :
    (_bql_trace query bindings t s).1.entries
      = s.entries ++ [⟨nextId s.seqEntries (s.entries.map SessionEntry.id),
          s.session_id, t, "bql", query ++ jsonDumpsBindings bindings, false⟩]
    ∧ (_sql_trace query bindings t s).1.entries
      = s.entries ++ [⟨nextId s.seqEntries (s.entries.map SessionEntry.id),
          s.session_id, t, "sql", query ++ jsonDumpsBindings bindings, false⟩]
    ∧ "SELECT 1;" ++ jsonDumpsBindings (.dict []) = "SELECT 1;\x7b\x7d" :=
  ⟨rfl, rfl, rfl⟩

/-- C2: the completion callback returned by a trace callback, run on the
state the callback left, flips exactly the new entry's completed flag to
true: every other entry row, every session row, both sequence counters
and the current session id are exactly as the trace callback left them. -/
theorem finish_completes_exactly_its_entry (type query : String)
    (bindings : Bindings) (t : Int) (s : LogState) :
    _finish (_trace type query bindings t s).2 (_trace type query bindings t s).1
      = ⟨s.sessions,
         s.entries ++ [⟨nextId s.seqEntries (s.entries.map SessionEntry.id),
           s.session_id, t, type, query ++ jsonDumpsBindings bindings, true⟩],
         s.seqSession,
         nextId s.seqEntries (s.entries.map SessionEntry.id),
         s.session_id⟩ := by
  simp only [_trace, _finish, List.map_append, List.map_cons, List.map_nil,
    if_pos rfl]
  rw [map_finish_of_ne _ _ (existing_id_ne_nextId s.seqEntries s.entries)]
  simp

/-- C9: the completion callback is idempotent on the log state; running
it twice for the same entry id leaves exactly the state running it once
leaves. -/
theorem finish_idempotent (entry_id : Nat) (s : LogState) :
    _finish entry_id (_finish entry_id s) = _finish entry_id s := by
  simp only [_finish, List.map_map]
  congr 1
  apply List.map_congr_left
  intro e _
  by_cases h : e.id = entry_id
  · simp [h]
  · simp [h]

/-- C3: dump_session_as_json session_id raises exactly when session_id
is less than 1 or greater than the current session id; in particular id
0 and id one past the current session id both raise, and no in-range id
raises. -/
theorem dump_raises_iff_out_of_range (s : LogState) (i : Int) :
    (isErr (dump_session_as_json i s) = true
      ↔ i < 1 ∨ (s.session_id : Int) < i)
    ∧ dump_session_as_json 0 s = .error "No such session (0)"
    ∧ isErr (dump_session_as_json ((s.session_id : Int) + 1) s) = true := by
  refine ⟨?_, ?_, ?_⟩
  · unfold dump_session_as_json
    split
    · rename_i h
      simp only [isErr]
      constructor
      · intro _; omega
      · intro _; trivial
    · rename_i h
      simp only [isErr]
      constructor
      · intro hc; cases hc
      · intro hc; omega
  · unfold dump_session_as_json
    rw [if_pos (Or.inr (by norm_num))]
    rfl
  · unfold dump_session_as_json
    rw [if_pos (Or.inl (by omega))]
    rfl

/-- C4: for an in-range session id, dump_session_as_json returns (does
not raise) the JSON array of that session's rows, and those rows are
ordered with non-increasing timestamps, most recent first. -/
theorem dump_ordered_time_desc (s : LogState) (i : Int)
    (h1 : 1 ≤ i) (h2 : i ≤ (s.session_id : Int)) :
    dump_session_as_json i s = .ok (rowsJson (sessionEntries i s))
    ∧ (sessionEntries i s).Pairwise timeDesc := by
  constructor
  · unfold dump_session_as_json
    rw [if_neg (by omega)]
  · exact List.sorted_insertionSort timeDesc _

/-- C4 witness: dumping session 2 of the sample state succeeds and its
rows have non-increasing timestamps. -/
theorem dump_ordered_time_desc_witness :
    1 ≤ (2 : Int) ∧ (2 : Int) ≤ (sampleState.session_id : Int)
    ∧ (dump_session_as_json 2 sampleState
        = .ok (rowsJson (sessionEntries 2 sampleState))
      ∧ (sessionEntries 2 sampleState).Pairwise timeDesc) :=
  ⟨by decide, by decide, dump_ordered_time_desc sampleState 2 (by decide) (by decide)⟩

/-- C5: for an in-range session id, each element of the dumped JSON
array is the serialization of a row object keyed by the column names id,
session_id, time, type, data, completed, in that order — not a
positional array of column values. -/
theorem dump_rows_are_keyed_objects (s : LogState) (i : Int)
    (h1 : 1 ≤ i) (h2 : i ≤ (s.session_id : Int)) :
    dump_session_as_json i s
      = .ok (jsonArray ((sessionEntries i s).map
          (fun e => jsonObject (entryRow e))))
    ∧ ∀ e : SessionEntry, (entryRow e).map Prod.fst
        = ["id", "session_id", "time", "type", "data", "completed"] := by
  constructor
  · unfold dump_session_as_json
    rw [if_neg (by omega)]
    rfl
  · intro e; rfl

/-- C5 witness: dumping session 1 of the sample state yields the array
of keyed row objects. -/
theorem dump_rows_are_keyed_objects_witness :
    1 ≤ (1 : Int) ∧ (1 : Int) ≤ (sampleState.session_id : Int)
    ∧ (dump_session_as_json 1 sampleState
        = .ok (jsonArray ((sessionEntries 1 sampleState).map
            (fun e => jsonObject (entryRow e))))
      ∧ ∀ e : SessionEntry, (entryRow e).map Prod.fst
          = ["id", "session_id", "time", "type", "data", "completed"]) :=
  ⟨by decide, by decide,
    dump_rows_are_keyed_objects sampleState 1 (by decide) (by decide)⟩

/-- C6: whatever the prior log state, clear_all_sessions deletes every
entry and every session, resets both sqlite_sequence counters (the entry
counter back to 0, the session counter to 1 held by the one fresh
session), leaves exactly one fresh session with the minimal id 1 and no
entries, and the current session id is that fresh id; dumping the fresh
session gives the empty JSON array. -/
theorem clear_all_sessions_resets (s : LogState) :
    clear_all_sessions s = ⟨[⟨1⟩], [], 1, 0, 1⟩
    ∧ (list_sessions (clear_all_sessions s)).length = 1
    ∧ current_session_id (clear_all_sessions s) = 1
    ∧ ((clear_all_sessions s).entries.filter (fun e =>
        e.session_id == current_session_id (clear_all_sessions s))).length = 0
    ∧ dump_session_as_json 1 (clear_all_sessions s) = .ok "[]" :=
  ⟨rfl, rfl, rfl, rfl, rfl⟩

/-- C7: at tracer construction, after the fresh session is created the
check counts the completed=false entries of the previous session
(current id minus 1); the printed output is exactly one fixed
human-readable warning when that count is positive and nothing
otherwise, the warning text mentions uncompleted entries, and the check
returns (never raises). -/
theorem tracer_init_warns_iff_unfinished (s : LogState) :
    (tracerInit s).2.1
      = ((tracerInit s).1.entries.filter (fun e =>
          e.completed == false
            && e.session_id == current_session_id (tracerInit s).1 - 1)).length
    ∧ ((tracerInit s).2.2
        = if 0 < (tracerInit s).2.1 then [sessionWarning] else [])
    ∧ ((tracerInit s).2.2.length = 1 ↔ 0 < (tracerInit s).2.1)
    ∧ sessionWarning
      = "WARNING: Previous session contains " ++ "uncompleted entries" ++
        (". This may be due to a bad termination or crash of the " ++
         "previous session. Consider uploading the session with send_session_data().") := by
  have hif : (tracerInit s).2.2
      = if 0 < (tracerInit s).2.1 then [sessionWarning] else [] := rfl
  refine ⟨rfl, hif, ?_, rfl⟩
  rw [hif]
  by_cases h : 0 < (tracerInit s).2.1
  · simp [h]
  · simp [h]

/-- C8: send_session_data posts exactly the sessions 1 through the
current session id, in increasing order, each POST carrying the
successful JSON dump of that session; every posted id is in range. -/
theorem send_posts_every_session_in_order (s : LogState) :
    (send_session_data s).map Prod.fst = List.range' 1 s.session_id
    ∧ ∀ p ∈ send_session_data s,
        1 ≤ p.1 ∧ p.1 ≤ s.session_id
        ∧ p.2 = dump_session_as_json (p.1 : Int) s
        ∧ p.2 = .ok (rowsJson (sessionEntries (p.1 : Int) s)) := by
  constructor
  · rw [send_session_data, List.map_map]
    exact List.map_id _
  · intro p hp
    simp only [send_session_data, List.mem_map] at hp
    obtain ⟨i, hi, rfl⟩ := hp
    rw [List.mem_range'_1] at hi
    have hcond : ¬((i : Int) > (s.session_id : Int) ∨ (i : Int) < 1) := by
      omega
    refine ⟨hi.1, by omega, rfl, ?_⟩
    unfold dump_session_as_json
    rw [if_neg hcond]

/-- C8 witness: on the sample state the posted sequence is sessions 1
and 2 with their dumped payloads. -/
theorem send_posts_every_session_in_order_witness :
    (send_session_data sampleState).map Prod.fst
      = List.range' 1 sampleState.session_id
    ∧ ∀ p ∈ send_session_data sampleState,
        1 ≤ p.1 ∧ p.1 ≤ sampleState.session_id
        ∧ p.2 = dump_session_as_json (p.1 : Int) sampleState
        ∧ p.2 = .ok (rowsJson (sessionEntries (p.1 : Int) sampleState)) :=
  send_posts_every_session_in_order sampleState

/-- C10: dumping an in-range session none of whose entries exist — in
particular the fresh session right after construction or after
clear_all_sessions — returns the empty JSON array string and does not
raise. -/
theorem dump_empty_session_empty_array (s : LogState) (i : Int)
    (h1 : 1 ≤ i) (h2 : i ≤ (s.session_id : Int))
    (h3 : ∀ e ∈ s.entries, (e.session_id : Int) ≠ i) :
    dump_session_as_json i s = .ok "[]" := by
  unfold dump_session_as_json
  rw [if_neg (by omega)]
  have hf : s.entries.filter (fun e => (e.session_id : Int) == i) = [] := by
    rw [List.filter_eq_nil_iff]
    intro a ha
    simpa using h3 a ha
  have he : sessionEntries i s = [] := by
    unfold sessionEntries
    rw [hf]
    rfl
  rw [he]
  rfl

/-- C10 witness: session 2 of the empty-session sample state has no
entries and dumps to the empty JSON array. -/
theorem dump_empty_session_empty_array_witness :
    1 ≤ (2 : Int) ∧ (2 : Int) ≤ (emptySessState.session_id : Int)
    ∧ (∀ e ∈ emptySessState.entries, (e.session_id : Int) ≠ 2)
    ∧ dump_session_as_json 2 emptySessState = .ok "[]" :=
  ⟨by decide, by decide, by decide,
    dump_empty_session_empty_array emptySessState 2 (by decide) (by decide)
      (by decide)⟩
